import Mathlib

/-!
Shallow embedding of the ink! ERC-20 ledger in `src/lib.rs`.

Accounts are modelled as natural numbers; `Balance` is `Nat` (the contract
uses an unsigned 128-bit balance and the spec mandates no silent wrap, so
all arithmetic below is exact natural arithmetic, with every subtraction
guarded by the same comparison the source performs).  The two ink!
`Mapping`s are modelled as partial maps (`Option`-valued functions):
`get` returns `Option`, a missing key reads as `none`, and every read in
the operations goes through `Option.getD 0`, mirroring `unwrap_or_default`.

Each contract message takes the (already authenticated) caller as an
explicit first argument, since in the source it is fetched from the ink!
environment, and returns the Rust `Result`, the post-call storage struct
and the list of events emitted by the call, in program order.
-/

abbrev AccountId := Nat

abbrev Balance := Nat

abbrev Mapping (K V : Type) := K → Option V

def Mapping.get (m : Mapping K V) (k : K) : Option V := m k

def Mapping.insert [DecidableEq K] (m : Mapping K V) (k : K) (v : V) : Mapping K V :=
  fun q => if q = k then some v else m q

def Mapping.new : Mapping K V := fun _ => none

inductive Error where
  | BalanceTooLow
  | AllowanceTooLow
  deriving DecidableEq, Repr

inductive Event where
  | Transfer (from_ : Option AccountId) (to_ : Option AccountId) (value : Balance)
  | Approval (owner : AccountId) (spender : AccountId) (value : Balance)
  deriving DecidableEq, Repr

structure Erc20 where
  total_supply : Balance
  balances : Mapping AccountId Balance
  allowances : Mapping (AccountId × AccountId) Balance

/-- Constructor `new`: credits the entire supply to the caller and emits
the mint `Transfer` event (`from = None`). -/
def Erc20.new (caller : AccountId) (total_supply : Balance) : Erc20 × List Event :=
  ({ total_supply := total_supply
     balances := Mapping.new.insert caller total_supply
     allowances := Mapping.new },
   [Event.Transfer none (some caller) total_supply])

/-- `balance_of`: `self.balances.get(&who).unwrap_or_default()`. -/
def balance_of (s : Erc20) (who : AccountId) : Balance :=
  (s.balances.get who).getD 0

/-- The allowance observation `self.allowances.get((owner, spender)).unwrap_or_default()`
used inside `transfer_from` (an absent pair reads as zero). -/
def allowance_of (s : Erc20) (owner spender : AccountId) : Balance :=
  (s.allowances.get (owner, spender)).getD 0

/-- Private helper `transfer_from_to`: both balances are read before either
write, exactly as in the source (so the write to `to` uses the stale
`balance_to` read before `from` was debited). -/
def transfer_from_to (s : Erc20) (from_ to_ : AccountId) (value : Balance) :
    Except Error Unit × Erc20 × List Event :=
  let balance_from := balance_of s from_
  let balance_to := balance_of s to_
  if value > balance_from then
    (Except.error Error.BalanceTooLow, s, [])
  else
    let s := { s with balances := s.balances.insert from_ (balance_from - value) }
    let s := { s with balances := s.balances.insert to_ (balance_to + value) }
    (Except.ok (), s, [Event.Transfer (some from_) (some to_) value])

/-- Message `transfer`: the caller is the implicit source account. -/
def transfer (s : Erc20) (caller to_ : AccountId) (value : Balance) :
    Except Error Unit × Erc20 × List Event :=
  transfer_from_to s caller to_ value

/-- Message `transfer_from`: the caller is the implicit spender.  The
allowance is checked, then overwritten with `allowance - value`, and only
then is `transfer_from_to` invoked (which performs the balance check). -/
def transfer_from (s : Erc20) (caller from_ to_ : AccountId) (value : Balance) :
    Except Error Unit × Erc20 × List Event :=
  let allowance := (s.allowances.get (from_, caller)).getD 0
  if value > allowance then
    (Except.error Error.AllowanceTooLow, s, [])
  else
    let s := { s with allowances := s.allowances.insert (from_, caller) (allowance - value) }
    transfer_from_to s from_ to_ value

/-- Message `approve`: the caller is the implicit owner; unconditional
absolute overwrite of the `(owner, spender)` allowance entry. -/
def approve (s : Erc20) (caller spender : AccountId) (value : Balance) :
    Except Error Unit × Erc20 × List Event :=
  let s := { s with allowances := s.allowances.insert (caller, spender) value }
  (Except.ok (), s, [Event.Approval caller spender value])

/-- One external mutating call, with its caller and arguments. -/
inductive Op where
  | transferOp (caller to_ : AccountId) (value : Balance)
  | transferFromOp (caller from_ to_ : AccountId) (value : Balance)
  | approveOp (caller spender : AccountId) (value : Balance)

/-- Post-call storage of one call (the storage is kept whether the call
returns `Ok` or `Err`). -/
def step (s : Erc20) : Op → Erc20
  | Op.transferOp c t v => (transfer s c t v).2.1
  | Op.transferFromOp c f t v => (transfer_from s c f t v).2.1
  | Op.approveOp c sp v => (approve s c sp v).2.1

/-- Storage after a finite sequence of external calls. -/
def run (s : Erc20) (ops : List Op) : Erc20 := ops.foldl step s

/-- Sum of `balance_of` over a finite list of accounts. -/
def sum_balances (s : Erc20) (accts : List AccountId) : Balance :=
  (accts.map (balance_of s)).sum

/-! Concrete ledgers used by the concrete theorems below. -/

/-- Ledger freshly constructed by account `0` with supply `100`. -/
def ledgerA : Erc20 := (Erc20.new 0 100).1

/-- `ledgerA` after account `0` self-transfers `50`. -/
def ledgerSelf : Erc20 := (transfer ledgerA 0 0 50).2.1

/-- Ledger freshly constructed by account `0` with supply `30`. -/
def ledger30 : Erc20 := (Erc20.new 0 30).1

/-- `ledger30` after account `0` approves spender `2` for `100`
(an approval above the owner's balance, which the contract permits). -/
def ledger30a : Erc20 := (approve ledger30 0 2 100).2.1

/-- Ledger with zero supply and no balance or allowance entries. -/
def emptyLedger : Erc20 :=
  { total_supply := 0, balances := Mapping.new, allowances := Mapping.new }

/-! Helper lemmas shared by several claim proofs. -/

theorem transfer_from_to_total_supply (s : Erc20) (f t : AccountId) (v : Balance) :
    (transfer_from_to s f t v).2.1.total_supply = s.total_supply := by
  simp only [transfer_from_to]
  split <;> rfl

theorem step_total_supply (s : Erc20) (op : Op) :
    (step s op).total_supply = s.total_supply := by
  cases op with
  | transferOp c t v => exact transfer_from_to_total_supply s c t v
  | transferFromOp c f t v =>
      show (transfer_from s c f t v).2.1.total_supply = s.total_supply
      simp only [transfer_from]
      split
      · rfl
      · exact transfer_from_to_total_supply _ f t v
  | approveOp c sp v => rfl

theorem run_total_supply (s : Erc20) (ops : List Op) :
    (run s ops).total_supply = s.total_supply := by
  induction ops generalizing s with
  | nil => rfl
  | cons op rest ih =>
      show (run (step s op) rest).total_supply = s.total_supply
      rw [ih (step s op), step_total_supply]

/-! Claim theorems. -/

/-- Claim C1 (refuting evaluation): the claim says a failing `transfer_from`
leaves the state untouched, but on the `BalanceTooLow` path the code has
already overwritten the allowance.  Here the owner `0` holds `30` and has
approved spender `2` for `100`; the spender calls
`transfer_from(0, 1, 50)`: the call returns `BalanceTooLow`, the balances
are unchanged, yet the allowance `(0, 2)` has dropped from `100` to `50`. -/
theorem c1_transfer_from_error_mutates_allowance :
    (transfer_from ledger30a 2 0 1 50).1 = Except.error Error.BalanceTooLow ∧
    allowance_of ledger30a 0 2 = 100 ∧
    allowance_of (transfer_from ledger30a 2 0 1 50).2.1 0 2 = 50 ∧
    balance_of (transfer_from ledger30a 2 0 1 50).2.1 0 = 30 ∧
    balance_of (transfer_from ledger30a 2 0 1 50).2.1 1 = 0 :=
  ⟨rfl, rfl, rfl, rfl, rfl⟩

/-- Claim C2 (refuting evaluation): the claim says a self-transfer of
`v ≤ balance` succeeds and leaves the balance unchanged.  The call does
succeed and emits the event, but because `transfer_from_to` credits `to`
with the balance read before `from` was debited, the self-transfer of `50`
raises account `0`'s balance from `100` to `150`. -/
theorem c2_self_transfer_changes_balance :
    50 ≤ balance_of ledgerA 0 ∧
    (transfer ledgerA 0 0 50).1 = Except.ok () ∧
    balance_of ledgerA 0 = 100 ∧
    balance_of (transfer ledgerA 0 0 50).2.1 0 = 150 ∧
    (transfer ledgerA 0 0 50).2.2 = [Event.Transfer (some 0) (some 0) 50] :=
  ⟨by decide, rfl, rfl, rfl, rfl⟩

/-- Claim C3 (refuting evaluation): the claim says the balances always sum
to the total supply after any call sequence.  After constructing with
supply `100` and one self-transfer of `50`, account `0` is the only
account with a balance entry and holds `150`, so the sum of all balances
is `150 ≠ 100`. -/
theorem c3_supply_conservation_violated :
    ledgerSelf.total_supply = 100 ∧
    balance_of ledgerSelf 0 = 150 ∧
    (∀ a : AccountId, a ≠ 0 → ledgerSelf.balances.get a = none) ∧
    sum_balances ledgerSelf [0] ≠ ledgerSelf.total_supply := by
  refine ⟨rfl, rfl, ?_, by decide⟩
  intro a ha
  simp [ledgerSelf, ledgerA, Erc20.new, transfer, transfer_from_to, balance_of,
    Mapping.get, Mapping.insert, Mapping.new, ha]

/-- Claim C3 witness: the inner frame fact instantiated at account `1`. -/
theorem c3_supply_conservation_violated_witness :
    (1 : AccountId) ≠ 0 ∧ ledgerSelf.balances.get 1 = none :=
  ⟨by decide, c3_supply_conservation_violated.2.2.1 1 (by decide)⟩

/-- Claim C4: `transfer_from` validates in a fixed order: `AllowanceTooLow`
when the value exceeds the allowance (regardless of the balance), else
`BalanceTooLow` when the value exceeds the source balance, else `Ok`. -/
theorem c4_transfer_from_validation_order (s : Erc20) (caller f t : AccountId) (v : Balance) :
    (transfer_from s caller f t v).1 =
      if v > allowance_of s f caller then Except.error Error.AllowanceTooLow
      else if v > balance_of s f then Except.error Error.BalanceTooLow
      else Except.ok () := by
  simp only [transfer_from, transfer_from_to, allowance_of, balance_of, Mapping.get]
  split
  · rfl
  · split
    · rfl
    · rfl

/-- Claim C5: a plain `transfer` of more than the caller's balance returns
`BalanceTooLow`, returns the storage unchanged and emits no event. -/
theorem c5_transfer_insufficient_balance (s : Erc20) (caller t : AccountId) (v : Balance)
    (h : v > balance_of s caller) :
    transfer s caller t v = (Except.error Error.BalanceTooLow, s, []) := by
  simp only [transfer, transfer_from_to]
  rw [if_pos h]

/-- Claim C5 witness: on the empty ledger, a transfer of `1` from the
penniless account `0` fails and changes nothing. -/
theorem c5_transfer_insufficient_balance_witness :
    1 > balance_of emptyLedger 0 ∧
    transfer emptyLedger 0 1 1 = (Except.error Error.BalanceTooLow, emptyLedger, []) :=
  ⟨by decide, c5_transfer_insufficient_balance emptyLedger 0 1 1 (by decide)⟩

/-- Claim C6: `approve` always succeeds, with no balance precondition, and
overwrites the `(owner, spender)` allowance with exactly the given value;
two successive approvals leave the second value, not the sum. -/
theorem c6_approve_overwrites (s : Erc20) (owner spender : AccountId) (v1 v2 : Balance) :
    (approve s owner spender v1).1 = Except.ok () ∧
    allowance_of (approve s owner spender v1).2.1 owner spender = v1 ∧
    allowance_of (approve (approve s owner spender v1).2.1 owner spender v2).2.1
      owner spender = v2 := by
  refine ⟨rfl, ?_, ?_⟩ <;>
    simp [approve, allowance_of, Mapping.get, Mapping.insert]

/-- Claim C7 counterexample: with `owner = to` the claim fails.  Account
`0` holds `100` and approves spender `1` for `50`; the spender then calls
`transfer_from(0, 0, 50)`.  Both calls succeed and the allowance drops to
`0`, but the final balance of `0` is `150`, not the `100 - 50 = 50` the
claim's "balance_of(owner) decreases by v" requires. -/
theorem c7_roundtrip_counterexample :
    50 ≤ balance_of ledgerA 0 ∧
    (transfer_from (approve ledgerA 0 1 50).2.1 1 0 0 50).1 = Except.ok () ∧
    allowance_of (transfer_from (approve ledgerA 0 1 50).2.1 1 0 0 50).2.1 0 1 = 0 ∧
    balance_of (transfer_from (approve ledgerA 0 1 50).2.1 1 0 0 50).2.1 0 = 150 ∧
    ¬ balance_of (transfer_from (approve ledgerA 0 1 50).2.1 1 0 0 50).2.1 0
        = balance_of ledgerA 0 - 50 :=
  ⟨by decide, rfl, rfl, rfl, by decide⟩

/-- Claim C7 (amended with `to ≠ owner`): approving `v ≤ balance_of owner`
and then spending it with `transfer_from(owner, to, v)` succeeds, zeroes
the `(owner, spender)` allowance, debits `owner` by `v` and credits `to`
by `v`. -/
theorem c7_approve_transfer_from_roundtrip (s : Erc20) (owner spender t : AccountId)
    (v : Balance) (hb : v ≤ balance_of s owner) (ht : t ≠ owner) :
    (transfer_from (approve s owner spender v).2.1 spender owner t v).1 = Except.ok () ∧
    allowance_of (transfer_from (approve s owner spender v).2.1 spender owner t v).2.1
      owner spender = 0 ∧
    balance_of (transfer_from (approve s owner spender v).2.1 spender owner t v).2.1
      owner = balance_of s owner - v ∧
    balance_of (transfer_from (approve s owner spender v).2.1 spender owner t v).2.1
      t = balance_of s t + v := by
  have hnb : ¬ (s.balances owner).getD 0 < v := not_lt.mpr hb
  simp only [approve, transfer_from, transfer_from_to, balance_of, allowance_of,
    Mapping.get, Mapping.insert]
  simp [Mapping.insert, hnb, ht, Ne.symm ht, Nat.sub_self]

/-- Claim C7 witness: account `0` holds `100`, approves `1` for `50`, and
`1` moves `50` to the distinct account `2`. -/
theorem c7_approve_transfer_from_roundtrip_witness :
    50 ≤ balance_of ledgerA 0 ∧ (2 : AccountId) ≠ 0 ∧
    ((transfer_from (approve ledgerA 0 1 50).2.1 1 0 2 50).1 = Except.ok () ∧
     allowance_of (transfer_from (approve ledgerA 0 1 50).2.1 1 0 2 50).2.1 0 1 = 0 ∧
     balance_of (transfer_from (approve ledgerA 0 1 50).2.1 1 0 2 50).2.1 0
       = balance_of ledgerA 0 - 50 ∧
     balance_of (transfer_from (approve ledgerA 0 1 50).2.1 1 0 2 50).2.1 2
       = balance_of ledgerA 2 + 50) :=
  ⟨by decide, by decide,
    c7_approve_transfer_from_roundtrip ledgerA 0 1 2 50 (by decide) (by decide)⟩

/-- Claim C8: the `total_supply` field is written only by the constructor;
after any finite sequence of `transfer`, `transfer_from` and `approve`
calls on a ledger constructed with supply `v`, `total_supply` is still `v`. -/
theorem c8_total_supply_constant (caller : AccountId) (v : Balance) (ops : List Op) :
    (run (Erc20.new caller v).1 ops).total_supply = v := by
  rw [run_total_supply]
  rfl

/-- Claim C9: `approve` only touches the `(owner, spender)` allowance
entry: every balance, the total supply, and every other allowance pair
read the same before and after the call. -/
theorem c9_approve_frame (s : Erc20) (caller spender : AccountId) (v : Balance) :
    (∀ a : AccountId, balance_of (approve s caller spender v).2.1 a = balance_of s a) ∧
    (approve s caller spender v).2.1.total_supply = s.total_supply ∧
    (∀ o q : AccountId, (o, q) ≠ (caller, spender) →
      allowance_of (approve s caller spender v).2.1 o q = allowance_of s o q) := by
  refine ⟨fun a => rfl, rfl, fun o q h => ?_⟩
  simp [approve, allowance_of, Mapping.get, Mapping.insert, h]

/-- Claim C9 witness: approving `(0, 1)` for `7` on the empty ledger does
not touch the distinct allowance pair `(1, 0)`. -/
theorem c9_approve_frame_witness :
    ((1, 0) : AccountId × AccountId) ≠ (0, 1) ∧
    allowance_of (approve emptyLedger 0 1 7).2.1 1 0 = allowance_of emptyLedger 1 0 :=
  ⟨by decide, (c9_approve_frame emptyLedger 0 1 7).2.2 1 0 (by decide)⟩

/-- Claim C10: a zero-value `transfer` always succeeds (also for a caller
with no balance entry), leaves every account's `balance_of` unchanged and
still emits one `Transfer` event with value `0`. -/
theorem c10_zero_value_transfer (s : Erc20) (caller t : AccountId) :
    (transfer s caller t 0).1 = Except.ok () ∧
    (∀ a : AccountId, balance_of (transfer s caller t 0).2.1 a = balance_of s a) ∧
    (transfer s caller t 0).2.2 = [Event.Transfer (some caller) (some t) 0] := by
  have h0 : ¬ (s.balances caller).getD 0 < 0 := Nat.not_lt_zero _
  simp only [transfer, transfer_from_to, balance_of, Mapping.get, gt_iff_lt]
  rw [if_neg h0]
  refine ⟨rfl, fun a => ?_, rfl⟩
  by_cases hat : a = t
  · subst hat
    simp [Mapping.insert]
  · by_cases hac : a = caller
    · subst hac
      simp [Mapping.insert, hat]
    · simp [Mapping.insert, hat, hac]
